import Mathlib

/-!
Verification development for the daaskobot repository: a multi-tenant
Telegram management bot with a mini-app frontend.  We shallowly embed the
file-presence check script, the frontend deep-link builders, the dev-server
configuration, the SQL schema and the Telegram web-view bridge utilities,
and prove the specification claims about them.
-/

/- ===================== check_files.sh ===================== -/

/-- The fixed `required` array of `check_files.sh`. -/
def required : List String :=
  [ "backend/requirements.txt"
  , "backend/app/main.py"
  , "backend/app/bot_worker.py"
  , "backend/app/services/db.py"
  , "backend/app/handlers/start.py"
  , "backend/app/models.py"
  , "backend/app/services/payments.py"
  , "db/schema.sql"
  , "frontend-miniapp/package.json"
  , "frontend-miniapp/index.html"
  , "frontend-miniapp/vite.config.js"
  , "frontend-miniapp/src/main.jsx"
  , "frontend-miniapp/src/App.jsx"
  , "frontend-miniapp/src/utils/telegram.js"
  , ".gitignore"
  , "backend/.env" ]

/-- The `missing` array the script accumulates: a filesystem state is a
predicate `fs : String → Bool` telling which paths exist as regular files
(the script tests `[[ -f ... ]]`). -/
def missingFiles (fs : String → Bool) : List String :=
  required.filter (fun f => !fs f)

/-- The script's exit status: 0 when nothing is missing, 2 otherwise. -/
def checkExitCode (fs : String → Bool) : Nat :=
  if missingFiles fs = [] then 0 else 2

/-- The lines the script prints. -/
def checkOutput (fs : String → Bool) : List String :=
  if missingFiles fs = [] then
    ["✔ All expected files are present."]
  else
    "✖ Missing files:" :: (missingFiles fs).map (fun m => " - " ++ m)

/- ===================== frontend: actions and plan data ===================== -/

/-- Observable browser/bridge action a click handler can take. -/
inductive FrontendAction where
  | alert (msg : String)
  | windowOpen (url : String) (target : String)
  | openTelegramLink (url : String)
deriving DecidableEq, BEq

/-- JS falsiness of the `VITE_BOT_USERNAME` env value (`undefined` or `""`). -/
def jsFalsy : Option String → Bool
  | none => true
  | some s => s == ""

/-- The static `plans` array of `SubscriptionsPlans.jsx`. -/
structure Plan where
  code : String
  title : String
  desc : String
  stars : Nat
deriving DecidableEq, BEq

def plans : List Plan :=
  [ ⟨"PRO_MONTH", "Pro — 30 days", "Advanced analytics, campaigns & mass DM.", 300⟩
  , ⟨"PRO_QUARTER", "Pro — 90 days", "3 months at a discount.", 800⟩ ]

/-- `openInChat` of `SubscriptionsPlans.jsx`: alert when the bot username is
falsy, otherwise `window.open` of the deep link in a new tab. -/
def openInChat (env : Option String) (code : String) : FrontendAction :=
  if jsFalsy env then
    FrontendAction.alert "VITE_BOT_USERNAME is not set. Add it to frontend-miniapp/.env"
  else
    FrontendAction.windowOpen ("https://t.me/" ++ env.getD "" ++ "?start=BUY_PRO_" ++ code) "_blank"

/-- `openInChatPay` of `App.jsx`: the username defaults to `""`; when set,
use the bridge when `tg?.openTelegramLink` is available, else `window.open`. -/
def openInChatPay (env : Option String) (hasOpenTelegramLink : Bool) : FrontendAction :=
  let botUsername := env.getD ""
  if botUsername == "" then
    FrontendAction.alert "Bot username missing. Set VITE_BOT_USERNAME in .env."
  else
    let url := "https://t.me/" ++ botUsername ++ "?start=BUY_PRO"
    if hasOpenTelegramLink then FrontendAction.openTelegramLink url
    else FrontendAction.windowOpen url "_blank"

/-- Props of the static Pro card rendered by `App.jsx`. -/
structure CardProps where
  title : String
  price : String
  period : String
  features : List String
  cta : String
  secondary : Bool
deriving DecidableEq, BEq

def appFreeCard : CardProps :=
  { title := "Free", price := "0★", period := "forever"
  , features := ["Basic join tracking", "Force-join gate", "Tenant dashboard"]
  , cta := "Current Plan", secondary := true }

def appProCard : CardProps :=
  { title := "Pro", price := "1000★", period := "30 days"
  , features := ["Advanced analytics & reports", "Mass messaging (rate-limited)",
                 "Invite link campaigns", "Priority support"]
  , cta := "Pay in Chat", secondary := false }

/-- Does the action navigate (open a link) rather than merely alert? -/
def isNavigation : FrontendAction → Bool
  | FrontendAction.alert _ => false
  | FrontendAction.windowOpen _ _ => true
  | FrontendAction.openTelegramLink _ => true

def isAlert : FrontendAction → Bool
  | FrontendAction.alert _ => true
  | FrontendAction.windowOpen _ _ => false
  | FrontendAction.openTelegramLink _ => false

/- ===================== vite.config.js ===================== -/

structure ViteServerConfig where
  host : Bool
  port : Nat
  strictPort : Bool
  allowedHosts : List String
deriving DecidableEq, BEq

/-- The `server` block of `vite.config.js`. -/
def viteServer : ViteServerConfig :=
  { host := true
  , port := 5173
  , strictPort := true
  , allowedHosts := [".ngrok-free.app", ".trycloudflare.com", "localhost"] }

/- ===================== db/schema.sql ===================== -/

/-- Postgres column types appearing in the schema (all builtin). -/
inductive SqlType where
  | uuid
  | text
  | bigint
  | timestamptz
  | boolean
  | numeric
  | jsonb
deriving DecidableEq, BEq

/-- A foreign-key reference clause on a column. -/
structure FKRef where
  table : String
  column : String
  onDeleteCascade : Bool
deriving DecidableEq, BEq

/-- A column definition: name, type, NOT NULL, DEFAULT, PRIMARY KEY,
and an optional REFERENCES clause. -/
structure Column where
  name : String
  type : SqlType
  notNull : Bool
  hasDefault : Bool
  isPrimaryKey : Bool
  references : Option FKRef
deriving DecidableEq, BEq

/-- Table-level constraints that a CREATE TABLE may carry beyond column
clauses; the schema only ever uses `unique`. -/
inductive TableConstraint where
  | unique (columns : List String)
  | check (expr : String)
deriving DecidableEq, BEq

structure Table where
  name : String
  columns : List Column
  constraints : List TableConstraint
deriving DecidableEq, BEq

def tenantsTable : Table :=
  { name := "tenants"
  , columns :=
    [ ⟨"id", SqlType.uuid, false, true, true, none⟩
    , ⟨"name", SqlType.text, true, false, false, none⟩
    , ⟨"owner_user_id", SqlType.bigint, true, false, false, none⟩
    , ⟨"created_at", SqlType.timestamptz, false, true, false, none⟩ ]
  , constraints := [] }

def usersTable : Table :=
  { name := "users"
  , columns :=
    [ ⟨"id", SqlType.uuid, false, true, true, none⟩
    , ⟨"tenant_id", SqlType.uuid, false, false, false, some ⟨"tenants", "id", true⟩⟩
    , ⟨"tg_user_id", SqlType.bigint, true, false, false, none⟩
    , ⟨"username", SqlType.text, false, false, false, none⟩
    , ⟨"first_name", SqlType.text, false, false, false, none⟩
    , ⟨"last_name", SqlType.text, false, false, false, none⟩
    , ⟨"phone", SqlType.text, false, false, false, none⟩
    , ⟨"country", SqlType.text, false, false, false, none⟩
    , ⟨"language", SqlType.text, false, true, false, none⟩
    , ⟨"is_premium", SqlType.boolean, false, true, false, none⟩
    , ⟨"created_at", SqlType.timestamptz, false, true, false, none⟩ ]
  , constraints := [TableConstraint.unique ["tenant_id", "tg_user_id"]] }

def chatsTable : Table :=
  { name := "chats"
  , columns :=
    [ ⟨"id", SqlType.uuid, false, true, true, none⟩
    , ⟨"tenant_id", SqlType.uuid, false, false, false, some ⟨"tenants", "id", true⟩⟩
    , ⟨"tg_chat_id", SqlType.bigint, true, false, false, none⟩
    , ⟨"title", SqlType.text, false, false, false, none⟩
    , ⟨"type", SqlType.text, false, false, false, none⟩
    , ⟨"is_active", SqlType.boolean, false, true, false, none⟩
    , ⟨"created_at", SqlType.timestamptz, false, true, false, none⟩ ]
  , constraints := [TableConstraint.unique ["tenant_id", "tg_chat_id"]] }

def inviteLinksTable : Table :=
  { name := "invite_links"
  , columns :=
    [ ⟨"id", SqlType.uuid, false, true, true, none⟩
    , ⟨"tenant_id", SqlType.uuid, false, false, false, some ⟨"tenants", "id", true⟩⟩
    , ⟨"chat_id", SqlType.uuid, false, false, false, some ⟨"chats", "id", true⟩⟩
    , ⟨"invite_link", SqlType.text, true, false, false, none⟩
    , ⟨"campaign_name", SqlType.text, false, false, false, none⟩
    , ⟨"created_by", SqlType.bigint, false, false, false, none⟩
    , ⟨"created_at", SqlType.timestamptz, false, true, false, none⟩ ]
  , constraints := [] }

def joinEventsTable : Table :=
  { name := "join_events"
  , columns :=
    [ ⟨"id", SqlType.uuid, false, true, true, none⟩
    , ⟨"tenant_id", SqlType.uuid, false, false, false, some ⟨"tenants", "id", true⟩⟩
    , ⟨"chat_id", SqlType.uuid, false, false, false, some ⟨"chats", "id", true⟩⟩
    , ⟨"tg_user_id", SqlType.bigint, false, false, false, none⟩
    , ⟨"invite_link_id", SqlType.uuid, false, false, false, some ⟨"invite_links", "id", false⟩⟩
    , ⟨"event_type", SqlType.text, false, false, false, none⟩
    , ⟨"join_at", SqlType.timestamptz, false, true, false, none⟩ ]
  , constraints := [] }

def subscriptionsTable : Table :=
  { name := "subscriptions"
  , columns :=
    [ ⟨"id", SqlType.uuid, false, true, true, none⟩
    , ⟨"tenant_id", SqlType.uuid, false, false, false, some ⟨"tenants", "id", true⟩⟩
    , ⟨"tg_user_id", SqlType.bigint, false, false, false, none⟩
    , ⟨"plan", SqlType.text, false, false, false, none⟩
    , ⟨"currency", SqlType.text, false, false, false, none⟩
    , ⟨"amount", SqlType.numeric, false, false, false, none⟩
    , ⟨"provider", SqlType.text, false, false, false, none⟩
    , ⟨"provider_payload", SqlType.jsonb, false, false, false, none⟩
    , ⟨"started_at", SqlType.timestamptz, false, true, false, none⟩
    , ⟨"expires_at", SqlType.timestamptz, false, false, false, none⟩ ]
  , constraints := [] }

def paymentsTable : Table :=
  { name := "payments"
  , columns :=
    [ ⟨"id", SqlType.uuid, false, true, true, none⟩
    , ⟨"tenant_id", SqlType.uuid, false, false, false, some ⟨"tenants", "id", true⟩⟩
    , ⟨"tg_user_id", SqlType.bigint, false, false, false, none⟩
    , ⟨"amount", SqlType.numeric, false, false, false, none⟩
    , ⟨"currency", SqlType.text, false, false, false, none⟩
    , ⟨"method", SqlType.text, false, false, false, none⟩
    , ⟨"provider_payload", SqlType.jsonb, false, false, false, none⟩
    , ⟨"status", SqlType.text, false, false, false, none⟩
    , ⟨"created_at", SqlType.timestamptz, false, true, false, none⟩ ]
  , constraints := [] }

def schemaTables : List Table :=
  [tenantsTable, usersTable, chatsTable, inviteLinksTable, joinEventsTable,
   subscriptionsTable, paymentsTable]

def builtinTypes : List SqlType :=
  [SqlType.uuid, SqlType.text, SqlType.bigint, SqlType.timestamptz,
   SqlType.boolean, SqlType.numeric, SqlType.jsonb]

def isUniqueConstraint : TableConstraint → Bool
  | TableConstraint.unique _ => true
  | TableConstraint.check _ => false

/- Row-level semantics of the schema. -/

/-- A SQL value of one of the schema's column types, or NULL. -/
inductive Value where
  | null
  | vUuid (s : String)
  | vText (s : String)
  | vInt (n : Int)
  | vTime (n : Nat)
  | vBool (b : Bool)
  | vNum (q : Rat)
  | vJson (s : String)
deriving DecidableEq, BEq

def Value.hasSqlType : Value → SqlType → Bool
  | Value.vUuid _, SqlType.uuid => true
  | Value.vText _, SqlType.text => true
  | Value.vInt _, SqlType.bigint => true
  | Value.vTime _, SqlType.timestamptz => true
  | Value.vBool _, SqlType.boolean => true
  | Value.vNum _, SqlType.numeric => true
  | Value.vJson _, SqlType.jsonb => true
  | _, _ => false

/-- A value is admissible in a column when it is NULL on a nullable,
non-primary-key column, or has the column's type. -/
def valueOk (c : Column) (v : Value) : Bool :=
  match v with
  | Value.null => !(c.notNull || c.isPrimaryKey)
  | v => Value.hasSqlType v c.type

/-- A row (values listed in column order) satisfies a table definition. -/
def rowConformsTo (t : Table) (row : List Value) : Bool :=
  row.length == t.columns.length &&
  (t.columns.zip row).all (fun p => valueOk p.1 p.2)

/-- Position of the `tenant_id` column of a table. -/
def tenantIdIdx (t : Table) : Nat :=
  t.columns.findIdx (fun c => c.name == "tenant_id")

/-- A row belongs to tenant `tid` when its `tenant_id` column holds `tid`. -/
def rowOwnedBy (t : Table) (tid : String) (row : List Value) : Bool :=
  row.get? (tenantIdIdx t) == some (Value.vUuid tid)

/-- Effect of `ON DELETE CASCADE` from `tenants` on one child table. -/
def cascadeDelete (t : Table) (tid : String) (rows : List (List Value)) : List (List Value) :=
  rows.filter (fun r => !(rowOwnedBy t tid r))

/-- Database state: rows of the seven tables. -/
structure DBState where
  tenants : List (List Value)
  users : List (List Value)
  chats : List (List Value)
  inviteLinks : List (List Value)
  joinEvents : List (List Value)
  subscriptions : List (List Value)
  payments : List (List Value)

/-- Deleting a tenant row: the cascade clauses delete every owned row in the
six child tables. -/
def deleteTenant (tid : String) (db : DBState) : DBState :=
  { tenants := db.tenants.filter (fun r => !(r.get? 0 == some (Value.vUuid tid)))
  , users := cascadeDelete usersTable tid db.users
  , chats := cascadeDelete chatsTable tid db.chats
  , inviteLinks := cascadeDelete inviteLinksTable tid db.inviteLinks
  , joinEvents := cascadeDelete joinEventsTable tid db.joinEvents
  , subscriptions := cascadeDelete subscriptionsTable tid db.subscriptions
  , payments := cascadeDelete paymentsTable tid db.payments }

/-- A subscriptions row whose `provider` is the external provider `stripe`. -/
def stripeSubscriptionRow : List Value :=
  [ Value.vUuid "5f1e7c2a", Value.vUuid "tenant-1", Value.vInt 12345
  , Value.vText "PRO", Value.vText "USD", Value.vNum 10
  , Value.vText "stripe", Value.vJson "\x7b\x7d", Value.vTime 0, Value.null ]

/-- A payments row whose `method` is `card`, not Stars. -/
def cardPaymentRow : List Value :=
  [ Value.vUuid "9a2b4c6d", Value.vUuid "tenant-1", Value.vInt 12345
  , Value.vNum 10, Value.vText "USD", Value.vText "card"
  , Value.vJson "\x7b\x7d", Value.vText "paid", Value.vTime 0 ]

/- ===================== utils/telegram.js ===================== -/

/-- A JavaScript JSON value, the argument of `sendDataToBot`. -/
inductive Json where
  | null
  | bool (b : Bool)
  | num (n : Int)
  | str (s : String)
  | arr (elems : List Json)
  | obj (fields : List (String × Json))
deriving BEq

/-- String escaping of `JSON.stringify`. -/
def escapeJsonChar (c : Char) : String :=
  if c = '"' then "\\\""
  else if c = '\\' then "\\\\"
  else if c = '\n' then "\\n"
  else String.singleton c

def escapeJson (s : String) : String :=
  String.join (s.toList.map escapeJsonChar)

mutual

/-- The host's `JSON.stringify` on JSON values. -/
def Json.stringify : Json → String
  | Json.null => "null"
  | Json.bool true => "true"
  | Json.bool false => "false"
  | Json.num n => toString n
  | Json.str s => "\"" ++ escapeJson s ++ "\""
  | Json.arr xs => "[" ++ stringifyElems xs ++ "]"
  | Json.obj fs => "\x7b" ++ stringifyFields fs ++ "\x7d"

def stringifyElems : List Json → String
  | [] => ""
  | [x] => Json.stringify x
  | x :: xs => Json.stringify x ++ "," ++ stringifyElems xs

def stringifyFields : List (String × Json) → String
  | [] => ""
  | [(k, v)] => "\"" ++ escapeJson k ++ "\":" ++ Json.stringify v
  | (k, v) :: fs => "\"" ++ escapeJson k ++ "\":" ++ Json.stringify v ++ "," ++ stringifyFields fs

end

/-- The host-provided `window.Telegram.WebApp` bridge object; `expandThrows`
records whether its `expand()` raises when called. -/
structure WebApp where
  expandThrows : Bool
deriving DecidableEq, BEq

/-- Observable calls made against the bridge or console. -/
inductive BridgeCall where
  | expand
  | sendData (payload : String)
  | warn (msg : String)
deriving DecidableEq, BEq

/-- Calling `tg.expand()` either returns or raises. -/
def callExpand (tg : WebApp) : Except String Unit :=
  if tg.expandThrows then Except.error "expand failed" else Except.ok ()

/-- `initTelegramWebApp` of `utils/telegram.js`: returns null when
`window.Telegram` is absent; otherwise calls `expand()` inside try/catch
(swallowing any exception) and returns the bridge object.  The result also
carries the trace of bridge calls; an uncaught exception would be `error`. -/
def initTelegramWebApp (telegram : Option WebApp) :
    Except String (Option WebApp × List BridgeCall) :=
  match telegram with
  | none => Except.ok (none, [])
  | some tg =>
    match callExpand tg with
    | Except.ok _ => Except.ok (some tg, [BridgeCall.expand])
    | Except.error _ => Except.ok (some tg, [BridgeCall.expand])

/-- `sendDataToBot` of `utils/telegram.js`: warns and returns when the bridge
is absent, otherwise calls `sendData` once with `JSON.stringify(data)`. -/
def sendDataToBot (telegram : Option WebApp) (data : Json) : List BridgeCall :=
  match telegram with
  | none => [BridgeCall.warn "Telegram WebApp not available."]
  | some _ => [BridgeCall.sendData (Json.stringify data)]

def isSendDataCall : BridgeCall → Bool
  | BridgeCall.sendData _ => true
  | _ => false

/- ===================== theorems ===================== -/

/-- Rows kept by a cascade delete are never owned by the deleted tenant. -/
theorem cascadeDelete_no_owned_rows (t : Table) (tid : String) (rows : List (List Value)) :
    (cascadeDelete t tid rows).all (fun r => !(rowOwnedBy t tid r)) = true := by
  rw [List.all_eq_true]
  intro r hr
  exact (List.mem_filter.mp hr).2

/-- Claim C1: the check script exits 0 (printing the success line) iff every
one of the 16 fixed required paths exists as a regular file; otherwise it
exits 2, printing exactly the missing required paths in list order. -/
theorem checkScript_exit_behaviour (fs : String → Bool) :
    required.length = 16 ∧
    (checkExitCode fs = 0 ↔ required.all fs = true) ∧
    (required.all fs = true ↔ ∀ f ∈ required, fs f = true) ∧
    (checkExitCode fs = 0 ∨ checkExitCode fs = 2) ∧
    List.Sublist (missingFiles fs) required ∧
    (∀ f, f ∈ missingFiles fs ↔ f ∈ required ∧ fs f = false) ∧
    (checkExitCode fs = 0 ↔ checkOutput fs = ["✔ All expected files are present."]) ∧
    (checkExitCode fs = 2 ↔
      checkOutput fs = "✖ Missing files:" :: (missingFiles fs).map (fun m => " - " ++ m)) := by
  have hnil : missingFiles fs = [] ↔ required.all fs = true := by
    simp [missingFiles, List.filter_eq_nil_iff, List.all_eq_true]
  refine ⟨rfl, ?_, ?_, ?_, ?_, ?_, ?_, ?_⟩
  · rw [← hnil]
    unfold checkExitCode
    by_cases h : missingFiles fs = [] <;> simp [h]
  · simp [List.all_eq_true]
  · unfold checkExitCode
    by_cases h : missingFiles fs = [] <;> simp [h]
  · exact List.filter_sublist required
  · intro f
    simp [missingFiles, List.mem_filter]
  · unfold checkExitCode checkOutput
    by_cases h : missingFiles fs = [] <;> simp [h]
  · unfold checkExitCode checkOutput
    by_cases h : missingFiles fs = [] <;> simp [h]

/-- Witness for C1 at two concrete filesystem states. -/
theorem checkScript_exit_behaviour_witness :
    checkExitCode (fun _ => true) = 0 ∧ checkExitCode (fun _ => false) = 2 := by
  constructor
  · exact (checkScript_exit_behaviour (fun _ => true)).2.1.mpr (by decide)
  · rcases (checkScript_exit_behaviour (fun _ => false)).2.2.2.1 with h | h
    · exact absurd ((checkScript_exit_behaviour (fun _ => false)).2.1.mp h) (by decide)
    · exact h

/-- Claim C2: with the bot username set, every plan's pay button opens exactly
the `https://t.me/` + username + `?start=BUY_PRO_` + code deep link in a new
tab, and the App Pro button opens exactly `https://t.me/` + username +
`?start=BUY_PRO`, via `openTelegramLink` when available, else `window.open`. -/
theorem payButtons_deep_link (u : String) (hu : u ≠ "") :
    (∀ p ∈ plans, openInChat (some u) p.code =
      FrontendAction.windowOpen ("https://t.me/" ++ u ++ "?start=BUY_PRO_" ++ p.code) "_blank") ∧
    (∀ b : Bool, openInChatPay (some u) b =
      if b then FrontendAction.openTelegramLink ("https://t.me/" ++ u ++ "?start=BUY_PRO")
      else FrontendAction.windowOpen ("https://t.me/" ++ u ++ "?start=BUY_PRO") "_blank") := by
  constructor
  · intro p _
    simp [openInChat, jsFalsy, hu]
  · intro b
    cases b <;> simp [openInChatPay, hu]

/-- Witness for C2 at a concrete username and the first plan. -/
theorem payButtons_deep_link_witness :
    openInChat (some "daaskobot") "PRO_MONTH" =
      FrontendAction.windowOpen "https://t.me/daaskobot?start=BUY_PRO_PRO_MONTH" "_blank" ∧
    openInChatPay (some "daaskobot") true =
      FrontendAction.openTelegramLink "https://t.me/daaskobot?start=BUY_PRO" := by
  have h := payButtons_deep_link "daaskobot" (by decide)
  have h1 := h.1 ⟨"PRO_MONTH", "Pro — 30 days", "Advanced analytics, campaigns & mass DM.", 300⟩
    (List.mem_cons_self _ _)
  have h2 := h.2 true
  exact ⟨h1.trans (by decide), h2.trans (by decide)⟩

/-- Claim C7: the dev server listens on all interfaces, on port 5173 with
strictPort, and allows exactly the three tunnel hosts. -/
theorem viteServer_config :
    viteServer.host = true ∧
    viteServer.port = 5173 ∧
    viteServer.strictPort = true ∧
    viteServer.allowedHosts = [".ngrok-free.app", ".trycloudflare.com", "localhost"] ∧
    viteServer.allowedHosts.length = 3 := by
  exact ⟨rfl, rfl, rfl, rfl, rfl⟩

/-- Claim C8: a deep-link navigation happens iff the bot username env value is
a non-empty string; on a falsy username both handlers only alert. -/
theorem noNavigation_without_username (env : Option String) (code : String) (b : Bool) :
    isNavigation (openInChat env code) = !jsFalsy env ∧
    isNavigation (openInChatPay env b) = !jsFalsy env ∧
    isAlert (openInChat env code) = jsFalsy env ∧
    isAlert (openInChatPay env b) = jsFalsy env := by
  cases env with
  | none => cases b <;> simp [openInChat, openInChatPay, jsFalsy, isNavigation, isAlert]
  | some s =>
      by_cases hs : s = "" <;>
        cases b <;>
          simp [openInChat, openInChatPay, jsFalsy, isNavigation, isAlert, hs]

/-- Claim C10: the two views embed inconsistent constants for the Pro 30-day
plan: 300★ with start parameter BUY_PRO_PRO_MONTH on the plans page versus
1000★ with start parameter BUY_PRO in App. -/
theorem plan_catalogues_disagree :
    plans.head?.map Plan.code = some "PRO_MONTH" ∧
    plans.head?.map Plan.stars = some 300 ∧
    plans.head?.map Plan.title = some "Pro — 30 days" ∧
    appProCard.price = "1000★" ∧
    appProCard.period = "30 days" ∧
    openInChat (some "b") "PRO_MONTH" =
      FrontendAction.windowOpen "https://t.me/b?start=BUY_PRO_PRO_MONTH" "_blank" ∧
    openInChatPay (some "b") true =
      FrontendAction.openTelegramLink "https://t.me/b?start=BUY_PRO" ∧
    "BUY_PRO_PRO_MONTH" ≠ "BUY_PRO" ∧
    ("300★" : String) ≠ appProCard.price := by
  refine ⟨rfl, rfl, rfl, rfl, rfl, by decide, by decide, by decide, by decide⟩

/-- Claim C3: the schema has exactly the 7 named tables, whose only
constraints beyond primary keys and foreign-key references are the two
uniqueness constraints on users and chats, with only builtin column types. -/
theorem schema_shape :
    schemaTables.length = 7 ∧
    schemaTables.map Table.name =
      ["tenants", "users", "chats", "invite_links", "join_events",
       "subscriptions", "payments"] ∧
    (schemaTables.all (fun t => t.constraints.all isUniqueConstraint)) = true ∧
    usersTable.constraints = [TableConstraint.unique ["tenant_id", "tg_user_id"]] ∧
    chatsTable.constraints = [TableConstraint.unique ["tenant_id", "tg_chat_id"]] ∧
    tenantsTable.constraints = [] ∧
    inviteLinksTable.constraints = [] ∧
    joinEventsTable.constraints = [] ∧
    subscriptionsTable.constraints = [] ∧
    paymentsTable.constraints = [] ∧
    (schemaTables.all (fun t => t.columns.all (fun c => builtinTypes.contains c.type))) = true := by
  decide

/-- Claim C4: every table other than tenants has a `tenant_id` column
referencing `tenants(id)` with ON DELETE CASCADE, and deleting a tenant
leaves no row owned by that tenant in any child table. -/
theorem tenant_cascade (db : DBState) (tid : String) :
    ((schemaTables.filter (fun t => t.name != "tenants")).all
      (fun t => t.columns.any
        (fun c => c.name == "tenant_id" && c.references == some ⟨"tenants", "id", true⟩))) = true ∧
    (deleteTenant tid db).users.all (fun r => !(rowOwnedBy usersTable tid r)) = true ∧
    (deleteTenant tid db).chats.all (fun r => !(rowOwnedBy chatsTable tid r)) = true ∧
    (deleteTenant tid db).inviteLinks.all (fun r => !(rowOwnedBy inviteLinksTable tid r)) = true ∧
    (deleteTenant tid db).joinEvents.all (fun r => !(rowOwnedBy joinEventsTable tid r)) = true ∧
    (deleteTenant tid db).subscriptions.all (fun r => !(rowOwnedBy subscriptionsTable tid r)) = true ∧
    (deleteTenant tid db).payments.all (fun r => !(rowOwnedBy paymentsTable tid r)) = true := by
  refine ⟨by decide, ?_, ?_, ?_, ?_, ?_, ?_⟩ <;>
    exact cascadeDelete_no_owned_rows _ tid _

/-- Claim C6 fails on the schema: a subscriptions row with provider `stripe`
and a payments row with method `card` both conform to the schema, so the
columns admit payment providers and methods other than Stars. -/
theorem schema_admits_stripe_row :
    rowConformsTo subscriptionsTable stripeSubscriptionRow = true ∧
    stripeSubscriptionRow.get? 6 = some (Value.vText "stripe") ∧
    (subscriptionsTable.columns.get? 6).map Column.name = some "provider" ∧
    rowConformsTo paymentsTable cardPaymentRow = true ∧
    cardPaymentRow.get? 5 = some (Value.vText "card") ∧
    (paymentsTable.columns.get? 5).map Column.name = some "method" := by
  decide

/-- Claim C6 amended: the UI copy presents payments as Telegram Stars with no
external providers, but the schema does not enforce that: the provider and
method columns are unconstrained text, and rows carrying other providers or
methods conform to the schema. -/
theorem stars_only_not_enforced_by_schema :
    ((subscriptionsTable.columns.filter (fun c => c.name == "provider")).map Column.type
      = [SqlType.text]) ∧
    ((paymentsTable.columns.filter (fun c => c.name == "method")).map Column.type
      = [SqlType.text]) ∧
    subscriptionsTable.constraints = [] ∧
    paymentsTable.constraints = [] ∧
    (∃ row, rowConformsTo subscriptionsTable row = true ∧
      row.get? 6 = some (Value.vText "stripe")) ∧
    (∃ row, rowConformsTo paymentsTable row = true ∧
      row.get? 5 = some (Value.vText "card")) := by
  exact ⟨by decide, by decide, rfl, rfl,
    ⟨stripeSubscriptionRow, by decide, by decide⟩,
    ⟨cardPaymentRow, by decide, by decide⟩⟩

/-- Claim C5: when the bridge is present, `initTelegramWebApp` calls the
bridge's `expand()` and returns that object, and `sendDataToBot data` calls
the bridge's `sendData` exactly once, with the JSON serialization of `data`
and never the raw value. -/
theorem bridge_wrappers_behaviour (tg : WebApp) (data : Json) :
    initTelegramWebApp (some tg) = Except.ok (some tg, [BridgeCall.expand]) ∧
    sendDataToBot (some tg) data = [BridgeCall.sendData (Json.stringify data)] ∧
    (sendDataToBot (some tg) data).countP isSendDataCall = 1 := by
  refine ⟨?_, rfl, rfl⟩
  cases h : callExpand tg <;> simp [initTelegramWebApp, h]

/-- Claim C9: the bridge wrappers are total and never throw: with no
`window.Telegram` present, `initTelegramWebApp` returns null and
`sendDataToBot` only warns (calling `sendData` zero times); and even a
throwing `expand()` is caught, so `initTelegramWebApp` still returns the
bridge object and never propagates an error. -/
theorem bridge_wrappers_total (telegram : Option WebApp) (data : Json) :
    (initTelegramWebApp telegram).isOk = true ∧
    initTelegramWebApp none = Except.ok (none, []) ∧
    sendDataToBot none data = [BridgeCall.warn "Telegram WebApp not available."] ∧
    (sendDataToBot none data).countP isSendDataCall = 0 ∧
    (∀ tg : WebApp, initTelegramWebApp (some tg) =
      Except.ok (some tg, [BridgeCall.expand])) := by
  refine ⟨?_, rfl, rfl, rfl, ?_⟩
  · cases telegram with
    | none => rfl
    | some tg =>
        cases h : callExpand tg <;>
          simp [initTelegramWebApp, h, Except.isOk, Except.toBool]
  · intro tg
    cases h : callExpand tg <;> simp [initTelegramWebApp, h]
